import Mathlib

/-!
Verification of the Zetalytics SpiderFoot connector
(`modules/sfp_zetalytics.py`).

The module is a protocol adapter: `handleEvent` receives a typed input
event, issues HTTP queries against fixed endpoints, and maps the parsed
JSON responses back into emitted events, with a per-run dedup cache
(`self.results`).  We embed the module shallowly:

* JSON values (the parsed responses) are the inductive `JValue`; Python's
  `None` and JSON `null` both map to `JValue.null` (exactly as `json.loads`
  conflates them).
* External collaborators (target-scope matching, DNS resolution, TLD
  classification, HTTP fetch + JSON parse, the stop flag) are an
  environment record `Env` of unconstrained functions; `Env.fetch`
  composes `sf.fetchUrl` with `json.loads`, returning `none` both for an
  empty body and for a parse failure, exactly the two cases in which the
  module's own `request` returns `None`.
* Python operations that can raise (`x.get(k)` on a non-dict, `x[k]` on a
  dict without `k`, iterating a non-iterable, hashing an unhashable set
  element) are embedded as `Option`-returning helpers; a `none` marks the
  exception.  Code paths thread this through the `ok`/`Option Bool`
  component of their results: `ok = false` (resp. `none`) means a Python
  exception escaped.
* Mutable module state is `MState` (the dedup cache `results`, kept as the
  list of its keys, and `errorState`), passed and returned explicitly.
-/

namespace SfpZetalytics

/-- Parsed JSON values, as produced by `json.loads`.  Python `None` and
JSON `null` are both `null`.  Objects keep key order (insertion order,
as Python dicts do); the concrete objects handled in this development
have pairwise distinct keys, matching what `json.loads` produces. -/
inductive JValue : Type
  | null : JValue
  | bool : Bool → JValue
  | num : Int → JValue
  | str : String → JValue
  | arr : List JValue → JValue
  | obj : List (String × JValue) → JValue

/-- First binding of a key in an object's key/value list. -/
def jlookup : List (String × JValue) → String → Option JValue
  | [], _ => none
  | kv :: rest, key => if kv.1 == key then some kv.2 else jlookup rest key

/-- Python `x.get(k)` where `x` must be a dict: `none` models the
`AttributeError` raised on a non-dict, `some JValue.null` is Python's
`None` for a missing key. -/
def pyGetE : JValue → String → Option JValue
  | .obj kvs, k => some ((jlookup kvs k).getD .null)
  | _, _ => none

/-- Python `x.get(k, d)` with an explicit default; `none` models the
`AttributeError` raised on a non-dict. -/
def pyGetDefE : JValue → String → JValue → Option JValue
  | .obj kvs, k, d => some ((jlookup kvs k).getD d)
  | _, _, _ => none

/-- Python `x[k]`: `none` models both the `KeyError` on a dict without
the key and the `TypeError` on a non-dict. -/
def pyIndexE : JValue → String → Option JValue
  | .obj kvs, k => jlookup kvs k
  | _, _ => none

/-- Python `for x in v`: lists yield their elements, strings their
characters, dicts their keys; `none` models the `TypeError` on the
remaining (non-iterable) values. -/
def iterE : JValue → Option (List JValue)
  | .arr xs => some xs
  | .str s => some (s.toList.map (fun c => .str (String.singleton c)))
  | .obj kvs => some (kvs.map (fun kv => .str kv.1))
  | _ => none

/-- Python truthiness of a parsed JSON value. -/
def truthy : JValue → Bool
  | .null => false
  | .bool b => b
  | .num n => n != 0
  | .str s => !(s == "")
  | .arr xs => !xs.isEmpty
  | .obj kvs => !kvs.isEmpty

/-- Truthiness of a `request` result (`None` is falsy). -/
def truthyOpt : Option JValue → Bool
  | none => false
  | some v => truthy v

/-- Whether the value is a Python `str` (`isinstance(v, str)`). -/
def JValue.isStr : JValue → Bool
  | .str _ => true
  | _ => false

/-- Whether the value is hashable in Python (may be added to a set). -/
def hashable : JValue → Bool
  | .arr _ => false
  | .obj _ => false
  | _ => true

/-- Equality of scalar JSON values, as Python `==` computes it on the
hashable values this module compares (strings, None, bools, ints);
structurally different constructors are unequal.  (Python's numeric
cross-type equalities such as `True == 1` are not reproduced; the module
only ever compares strings and `None`.) -/
def scalarEq : JValue → JValue → Bool
  | .null, .null => true
  | .bool a, .bool b => a == b
  | .num a, .num b => a == b
  | .str a, .str b => a == b
  | _, _ => false

/-- Python `str()` as the module's f-strings use it: on the strings and
`None` that actually reach the cache-key interpolation it is exact;
container rendering is abbreviated (no claim depends on it). -/
def pyStr : JValue → String
  | .str s => s
  | .null => "None"
  | .bool true => "True"
  | .bool false => "False"
  | .num n => toString n
  | .arr _ => "[...]"
  | .obj _ => "\x7b...\x7d"

mutual

/-- Python `json.dumps` with its default separators (`", "` and `": "`);
string escaping is not reproduced (no claim inspects a serialized
payload beyond its presence). -/
def jsonDumps : JValue → String
  | .null => "null"
  | .bool true => "true"
  | .bool false => "false"
  | .num n => toString n
  | .str s => "\"" ++ s ++ "\""
  | .arr xs => "[" ++ jsonDumpsList xs ++ "]"
  | .obj kvs => "\x7b" ++ jsonDumpsObj kvs ++ "\x7d"

/-- Comma-separated serialization of a JSON array's elements. -/
def jsonDumpsList : List JValue → String
  | [] => ""
  | [x] => jsonDumps x
  | x :: y :: rest => jsonDumps x ++ ", " ++ jsonDumpsList (y :: rest)

/-- Comma-separated serialization of a JSON object's entries. -/
def jsonDumpsObj : List (String × JValue) → String
  | [] => ""
  | [kv] => "\"" ++ kv.1 ++ "\": " ++ jsonDumps kv.2
  | kv :: kv2 :: rest => "\"" ++ kv.1 ++ "\": " ++ jsonDumps kv.2 ++ ", " ++ jsonDumpsObj (kv2 :: rest)

end

/-- Serialization of a `request` result; `json.dumps(None)` is `"null"`. -/
def jsonDumpsO (o : Option JValue) : String := jsonDumps (o.getD .null)

/-- An input event as `handleEvent` sees it (`event.eventType`,
`event.data`; the producing module's name is only logged and is
omitted). -/
structure Event : Type where
  etype : String
  data : String
deriving DecidableEq, Repr

/-- An emitted `SpiderFootEvent`: type, payload, and the parent event
passed as `pevent`. -/
structure Emission : Type where
  etype : String
  data : JValue
  parent : Event

/-- Mutable module state: the keys of the per-run dedup dict
`self.results`, and the persistent `errorState` flag. -/
structure MState : Type where
  results : List String
  errorState : Bool

/-- Boolean membership in the dedup cache (Python `k in self.results`). -/
def memS (k : String) : List String → Bool
  | [] => false
  | x :: rest => k == x || memS k rest

/-- The external collaborators and configuration, fixed for a run:
the stop flag (`checkForStop`), the two options, target-scope matching
(`getTarget().matches`), DNS resolution (`resolveHost`/`resolveHost6`),
TLD classification (`isDomain`), and the HTTP fetch + JSON parse
underlying `request` (`fetch path q`, `none` when the body is empty or
fails to parse). -/
structure Env : Type where
  stop : Bool
  api_key : String
  verify : Bool
  matchesTarget : JValue → Bool
  resolves4 : JValue → Bool
  resolves6 : JValue → Bool
  isDomain : JValue → Bool
  fetch : String → String → Option JValue

/-- The module's `emit`: checks the stop flag, then builds and dispatches
a `SpiderFootEvent`; `none` when the stop flag suppressed the emission. -/
def emit (env : Env) (etype : String) (data : JValue) (pevent : Event) : Option Emission :=
  if env.stop then none else some ⟨etype, data, pevent⟩

/-- The emissions `emit` actually dispatches, as a list. -/
def emitL (env : Env) (etype : String) (data : JValue) (pevent : Event) : List Emission :=
  (emit env etype data pevent).toList

/-- The module's `verify_emit_internet_name(hostname, pevent)`: the
single dedup/scope/resolution gate.  It reads the dedup cache but does
not write it; it returns the emissions it dispatched and its boolean
result.  The hostname argument is a `JValue` because
`generate_hostname_events` can pass a non-string. -/
def verify_emit_internet_name (env : Env) (st : MState) (hostname : JValue) (pevent : Event) :
    List Emission × Bool :=
  if memS ("INTERNET_NAME:" ++ pyStr hostname) st.results then ([], false)
  else if !env.matchesTarget hostname then ([], false)
  else if env.verify && !env.resolves4 hostname && !env.resolves6 hostname then
    (emitL env "INTERNET_NAME_UNRESOLVED" hostname pevent, true)
  else
    (emitL env "INTERNET_NAME" hostname pevent ++
      (if env.isDomain hostname then emitL env "DOMAIN_NAME" hostname pevent else []), true)

/-- The loop of `generate_subdomains_events`: for each entry take
`r.get("qname")` (raising on a non-dict entry), skip non-strings, and
pass strings through the gate, or-ing the gate's result into
`events_generated`.  Result: emissions, and `some flag` on normal
return or `none` on a raise. -/
def genSubLoop (env : Env) (st : MState) (pevent : Event) (flag : Bool) :
    List JValue → List Emission × Option Bool
  | [] => ([], some flag)
  | r :: rest =>
    match pyGetE r "qname" with
    | none => ([], none)
    | some qname =>
      if qname.isStr then
        let g := verify_emit_internet_name env st qname pevent
        let t := genSubLoop env st pevent (flag || g.2) rest
        (g.1 ++ t.1, t.2)
      else
        genSubLoop env st pevent flag rest

/-- The module's `generate_subdomains_events(data, pevent)`.  Note the
defaulted lookup `data.get("results", [])`. -/
def generate_subdomains_events (env : Env) (st : MState) (data : Option JValue)
    (pevent : Event) : List Emission × Option Bool :=
  match data with
  | some (.obj kvs) =>
    match (jlookup kvs "results").getD (.arr []) with
    | .arr rs => genSubLoop env st pevent false rs
    | _ => ([], some false)
  | _ => ([], some false)

/-- The `hostnames` set built by `generate_hostname_events`: every
entry's `r.get("qname")` is added, because the source checks
`isinstance("qname", str)` — the literal string, which is always a
`str` — instead of the extracted value.  `none` models a raise
(`r.get` on a non-dict entry, or `set.add` of an unhashable value).
Python set iteration order is unspecified; first-insertion order is
used here (no claim depends on the order). -/
def hostnamesOf : List JValue → List JValue → Option (List JValue)
  | [], acc => some acc.reverse
  | r :: rest, acc =>
    match pyGetE r "qname" with
    | none => none
    | some q =>
      if hashable q then
        hostnamesOf rest (if acc.any (scalarEq q) then acc else q :: acc)
      else none

/-- The loop of `generate_hostname_events` over the `hostnames` set:
every member is passed to the gate. -/
def gateLoop (env : Env) (st : MState) (pevent : Event) (flag : Bool) :
    List JValue → List Emission × Option Bool
  | [] => ([], some flag)
  | h :: rest =>
    let g := verify_emit_internet_name env st h pevent
    let t := gateLoop env st pevent (flag || g.2) rest
    (g.1 ++ t.1, t.2)

/-- The values `generate_hostname_events` passes to the gate for a given
response (the `hostnames` set, in insertion order). -/
def hostname_gate_calls (data : Option JValue) : List JValue :=
  match data with
  | some (.obj kvs) =>
    match (jlookup kvs "results").getD .null with
    | .arr rs => (hostnamesOf rs []).getD []
    | _ => []
  | _ => []

/-- The module's `generate_hostname_events(data, pevent)`: builds the
`hostnames` set, then gates every member. -/
def generate_hostname_events (env : Env) (st : MState) (data : Option JValue)
    (pevent : Event) : List Emission × Option Bool :=
  match data with
  | some (.obj kvs) =>
    match (jlookup kvs "results").getD .null with
    | .arr rs =>
      match hostnamesOf rs [] with
      | none => ([], none)
      | some hs => gateLoop env st pevent false hs
    | _ => ([], some false)
  | _ => ([], some false)

/-- The loop of `generate_email_events`: for each entry take
`r.get("d")` (raising on a non-dict entry) and emit an
`AFFILIATE_DOMAIN_NAME` event when it is a string. -/
def genEmailLoop (env : Env) (pevent : Event) (flag : Bool) :
    List JValue → List Emission × Option Bool
  | [] => ([], some flag)
  | r :: rest =>
    match pyGetE r "d" with
    | none => ([], none)
    | some domain =>
      if domain.isStr then
        let t := genEmailLoop env pevent true rest
        (emitL env "AFFILIATE_DOMAIN_NAME" domain pevent ++ t.1, t.2)
      else
        genEmailLoop env pevent flag rest

/-- The loop of `generate_email_domain_events` (textually the same body
as `genEmailLoop` in the source; kept separate so their equivalence is a
theorem, not a definition). -/
def genEmailDomainLoop (env : Env) (pevent : Event) (flag : Bool) :
    List JValue → List Emission × Option Bool
  | [] => ([], some flag)
  | r :: rest =>
    match pyGetE r "d" with
    | none => ([], none)
    | some domain =>
      if domain.isStr then
        let t := genEmailDomainLoop env pevent true rest
        (emitL env "AFFILIATE_DOMAIN_NAME" domain pevent ++ t.1, t.2)
      else
        genEmailDomainLoop env pevent flag rest

/-- The module's `generate_email_events(data, pevent)`. -/
def generate_email_events (env : Env) (data : Option JValue) (pevent : Event) :
    List Emission × Option Bool :=
  match data with
  | some (.obj kvs) =>
    match (jlookup kvs "results").getD .null with
    | .arr rs => genEmailLoop env pevent false rs
    | _ => ([], some false)
  | _ => ([], some false)

/-- The module's `generate_email_domain_events(data, pevent)`. -/
def generate_email_domain_events (env : Env) (data : Option JValue) (pevent : Event) :
    List Emission × Option Bool :=
  match data with
  | some (.obj kvs) =>
    match (jlookup kvs "results").getD .null with
    | .arr rs => genEmailDomainLoop env pevent false rs
    | _ => ([], some false)
  | _ => ([], some false)

/-- The observable effects of a stretch of `handleEvent` code: the
events it dispatched, the remote queries it issued (endpoint path and
query value, in order), and whether it completed normally (`ok = false`
marks a Python exception escaping). -/
structure Step : Type where
  emits : List Emission
  queries : List (String × String)
  ok : Bool

/-- Sequencing of two stretches of code: the second runs only if the
first did not raise. -/
def Step.seq (a : Step) (b : Unit → Step) : Step :=
  if a.ok then
    let s := b ()
    ⟨a.emits ++ s.emits, a.queries ++ s.queries, s.ok⟩
  else a

/-- A stretch that issues one `request` (recording the query) and hands
the parsed response to its continuation. -/
def queryStep (env : Env) (path : String) (q : String) (k : Option JValue → Step) : Step :=
  let s := k (env.fetch path q)
  ⟨s.emits, (path, q) :: s.queries, s.ok⟩

/-- Runs a per-element stretch over a list, stopping at a raise. -/
def stepList (f : JValue → Step) : List JValue → Step
  | [] => ⟨[], [], true⟩
  | x :: rest => (f x).seq (fun _ => stepList f rest)

/-- One `rec` of the `records` sub-loop inside the `DOMAIN_NAME`
subdomains block: emit an `IP_ADDRESS` event for string values of
`a`/`AAAA` records. -/
def recStep (env : Env) (ev : Event) (rec : JValue) : Step :=
  match pyGetE rec "rrtype" with
  | none => ⟨[], [], false⟩
  | some rt =>
    if scalarEq rt (.str "a") || scalarEq rt (.str "AAAA") then
      match pyGetE rec "value" with
      | none => ⟨[], [], false⟩
      | some ip =>
        if ip.isStr then ⟨emitL env "IP_ADDRESS" ip ev, [], true⟩ else ⟨[], [], true⟩
    else ⟨[], [], true⟩

/-- Lines 306-312 of the source, one `entry` of the `DOMAIN_NAME`
subdomains block: `entry['qname']` (KeyError when absent!), then the
`records` sub-loop. -/
def subdEntryStep (env : Env) (ev : Event) (entry : JValue) : Step :=
  match pyIndexE entry "qname" with
  | none => ⟨[], [], false⟩
  | some q =>
    let e1 := emitL env "AFFILIATE_DOMAIN_NAME" q ev
    match pyGetDefE entry "records" (.arr []) with
    | none => ⟨e1, [], false⟩
    | some recs =>
      match iterE recs with
      | none => ⟨e1, [], false⟩
      | some rl => (⟨e1, [], true⟩ : Step).seq (fun _ => stepList (recStep env ev) rl)

/-- Lines 305-313: the first subdomains block —
`if sd and isinstance(sd.get("results"), list):` (the `.get` itself
raises on a truthy non-dict), the entry loop, then the `RAW_RIR_DATA`
emission. -/
def domainSubdomainsStep (env : Env) (ev : Event) (sd : Option JValue) : Step :=
  match sd with
  | none => ⟨[], [], true⟩
  | some v =>
    if truthy v then
      match pyGetE v "results" with
      | none => ⟨[], [], false⟩
      | some res =>
        match res with
        | .arr entries =>
          (stepList (subdEntryStep env ev) entries).seq
            (fun _ => ⟨emitL env "RAW_RIR_DATA" (.str (jsonDumps v)) ev, [], true⟩)
        | _ => ⟨[], [], true⟩
    else ⟨[], [], true⟩

/-- Lines 314-315: the `generate_subdomains_events` pass over the same
response, with its conditional `RAW_RIR_DATA` emission. -/
def domainGenSubStep (env : Env) (st : MState) (ev : Event) (sd : Option JValue) : Step :=
  let g := generate_subdomains_events env st sd ev
  match g.2 with
  | none => ⟨g.1, [], false⟩
  | some b =>
    ⟨g.1 ++ (if b then emitL env "RAW_RIR_DATA" (.str (jsonDumpsO sd)) ev else []), [], true⟩

/-- Lines 317-319: the `generate_email_domain_events` pass with its
conditional `RAW_RIR_DATA` emission. -/
def emailDomainGenStep (env : Env) (ev : Event) (d : Option JValue) : Step :=
  let g := generate_email_domain_events env d ev
  match g.2 with
  | none => ⟨g.1, [], false⟩
  | some b =>
    ⟨g.1 ++ (if b then emitL env "RAW_RIR_DATA" (.str (jsonDumpsO d)) ev else []), [], true⟩

/-- One `r` of the ns2domain loop: emit `AFFILIATE_DOMAIN_NAME` for a
string `domain` field differing from the event value. -/
def nsEntryStep (env : Env) (ev : Event) (r : JValue) : Step :=
  match pyGetE r "domain" with
  | none => ⟨[], [], false⟩
  | some d =>
    if d.isStr && !scalarEq d (.str ev.data) then
      ⟨emitL env "AFFILIATE_DOMAIN_NAME" d ev, [], true⟩
    else ⟨[], [], true⟩

/-- Lines 321-326: the ns2domain block. -/
def domainNsStep (env : Env) (ev : Event) (nsd : Option JValue) : Step :=
  match nsd with
  | none => ⟨[], [], true⟩
  | some v =>
    if truthy v then
      match pyGetE v "results" with
      | none => ⟨[], [], false⟩
      | some res =>
        match res with
        | .arr rs =>
          (stepList (nsEntryStep env ev) rs).seq
            (fun _ => ⟨emitL env "RAW_RIR_DATA" (.str (jsonDumps v)) ev, [], true⟩)
        | _ => ⟨[], [], true⟩
    else ⟨[], [], true⟩

/-- The `if records: emit RAW_RIR_DATA` pattern shared by the
domain2ip/aaaa/mx/cname/d8s/nsglue and ip2nsglue/ip2pwhois blocks. -/
def rawIfTruthy (env : Env) (ev : Event) (d : Option JValue) : Step :=
  match d with
  | none => ⟨[], [], true⟩
  | some v =>
    if truthy v then ⟨emitL env "RAW_RIR_DATA" (.str (jsonDumps v)) ev, [], true⟩
    else ⟨[], [], true⟩

/-- One `r` of the whois loop: the chained
`r.get("response", {}).get("x", {}).get("owner")` (each `.get` raises on
a non-dict receiver), emitting `EMAILADDR` for a truthy owner. -/
def whoisEntryStep (env : Env) (ev : Event) (r : JValue) : Step :=
  match pyGetDefE r "response" (.obj []) with
  | none => ⟨[], [], false⟩
  | some resp =>
    match pyGetDefE resp "x" (.obj []) with
    | none => ⟨[], [], false⟩
    | some x =>
      match pyGetE x "owner" with
      | none => ⟨[], [], false⟩
      | some email =>
        if truthy email then ⟨emitL env "EMAILADDR" email ev, [], true⟩ else ⟨[], [], true⟩

/-- Lines 344-350: the domain2whois block — `RAW_RIR_DATA` first, then
the owner-email loop over `whois_records.get("results", [])` (the
`.get` raises on a truthy non-dict, the `for` on a non-iterable). -/
def domainWhoisStep (env : Env) (ev : Event) (w : Option JValue) : Step :=
  match w with
  | none => ⟨[], [], true⟩
  | some v =>
    if truthy v then
      (⟨emitL env "RAW_RIR_DATA" (.str (jsonDumps v)) ev, [], true⟩ : Step).seq (fun _ =>
        match pyGetDefE v "results" (.arr []) with
        | none => ⟨[], [], false⟩
        | some res =>
          match iterE res with
          | none => ⟨[], [], false⟩
          | some rl => stepList (whoisEntryStep env ev) rl)
    else ⟨[], [], true⟩

/-- The `INTERNET_NAME` branch (lines 297-300): query `/hostname`, map
with `generate_hostname_events`, `RAW_RIR_DATA` on success. -/
def handleInternetName (env : Env) (st : MState) (ev : Event) : Step :=
  queryStep env "/hostname" ev.data (fun data =>
    let g := generate_hostname_events env st data ev
    match g.2 with
    | none => ⟨g.1, [], false⟩
    | some b =>
      ⟨g.1 ++ (if b then emitL env "RAW_RIR_DATA" (.str (jsonDumpsO data)) ev else []),
       [], true⟩)

/-- The `DOMAIN_NAME` branch (lines 303-358), in source order; a raise
in any block skips the remaining blocks (and their queries). -/
def handleDomainName (env : Env) (st : MState) (ev : Event) : Step :=
  let q := ev.data
  (queryStep env "/subdomains" q (fun sd =>
    (domainSubdomainsStep env ev sd).seq (fun _ =>
      domainGenSubStep env st ev sd))).seq (fun _ =>
  (queryStep env "/email_domain" q (fun d => emailDomainGenStep env ev d)).seq (fun _ =>
  (queryStep env "/ns2domain" q (fun d => domainNsStep env ev d)).seq (fun _ =>
  (queryStep env "/domain2ip" q (fun d => rawIfTruthy env ev d)).seq (fun _ =>
  (queryStep env "/domain2aaaa" q (fun d => rawIfTruthy env ev d)).seq (fun _ =>
  (queryStep env "/domain2mx" q (fun d => rawIfTruthy env ev d)).seq (fun _ =>
  (queryStep env "/domain2cname" q (fun d => rawIfTruthy env ev d)).seq (fun _ =>
  (queryStep env "/domain2whois" q (fun d => domainWhoisStep env ev d)).seq (fun _ =>
  (queryStep env "/domain2d8s" q (fun d => rawIfTruthy env ev d)).seq (fun _ =>
  queryStep env "/domain2nsglue" q (fun d => rawIfTruthy env ev d))))))))))

/-- One `r` of the `/ip` results loop: emit `AFFILIATE_DOMAIN_NAME` for
a string `qname` differing from the event value. -/
def ipEntryStep (env : Env) (ev : Event) (r : JValue) : Step :=
  match pyGetE r "qname" with
  | none => ⟨[], [], false⟩
  | some d =>
    if d.isStr && !scalarEq d (.str ev.data) then
      ⟨emitL env "AFFILIATE_DOMAIN_NAME" d ev, [], true⟩
    else ⟨[], [], true⟩

/-- Lines 366-373: the `/ip` block (the source's nested second
`if ip` is redundant under the outer one and folds away). -/
def ipStep (env : Env) (ev : Event) (ip : Option JValue) : Step :=
  match ip with
  | none => ⟨[], [], true⟩
  | some v =>
    if truthy v then
      (match pyGetE v "results" with
       | none => (⟨[], [], false⟩ : Step)
       | some res =>
         match res with
         | .arr rs => stepList (ipEntryStep env ev) rs
         | _ => ⟨[], [], true⟩).seq (fun _ =>
        ⟨emitL env "RAW_RIR_DATA" (.str (jsonDumps v)) ev, [], true⟩)
    else ⟨[], [], true⟩

/-- The `IP_ADDRESS` branch (lines 359-373). -/
def handleIpAddress (env : Env) (ev : Event) : Step :=
  (queryStep env "/ip2nsglue" ev.data (fun d => rawIfTruthy env ev d)).seq (fun _ =>
  (queryStep env "/ip2pwhois" ev.data (fun d => rawIfTruthy env ev d)).seq (fun _ =>
  queryStep env "/ip" ev.data (fun d => ipStep env ev d)))

/-- The `EMAILADDR` branch (lines 375-378). -/
def handleEmailAddr (env : Env) (ev : Event) : Step :=
  queryStep env "/email_address" ev.data (fun d =>
    let g := generate_email_events env d ev
    match g.2 with
    | none => ⟨g.1, [], false⟩
    | some b =>
      ⟨g.1 ++ (if b then emitL env "RAW_RIR_DATA" (.str (jsonDumpsO d)) ev else []),
       [], true⟩)

/-- The dedup-cache key recorded by `handleEvent`
(`f"{eventName}:{eventData}"`). -/
def eventKey (ev : Event) : String := ev.etype ++ ":" ++ ev.data

/-- The outcome of one `handleEvent` call: resulting module state,
emissions, queries issued, and whether it returned normally. -/
structure HEOut : Type where
  st : MState
  emits : List Emission
  queries : List (String × String)
  ok : Bool

/-- The module's `handleEvent(event)`: error-state guard, stop guard,
API-key guard (entering the error state), dedup guard, key recording,
then dispatch on the event type. -/
def handleEvent (env : Env) (st : MState) (ev : Event) : HEOut :=
  if st.errorState then ⟨st, [], [], true⟩
  else if env.stop then ⟨st, [], [], true⟩
  else if env.api_key == "" then ⟨{ st with errorState := true }, [], [], true⟩
  else if memS (eventKey ev) st.results then ⟨st, [], [], true⟩
  else
    let st2 : MState := { st with results := eventKey ev :: st.results }
    let s : Step :=
      if ev.etype == "INTERNET_NAME" then handleInternetName env st2 ev
      else if ev.etype == "DOMAIN_NAME" then handleDomainName env st2 ev
      else if ev.etype == "IP_ADDRESS" then handleIpAddress env ev
      else if ev.etype == "EMAILADDR" then handleEmailAddr env ev
      else ⟨[], [], true⟩
    ⟨st2, s.emits, s.queries, s.ok⟩

/-- The module state after a sequence of `handleEvent` calls. -/
def runState (env : Env) (st : MState) : List Event → MState
  | [] => st
  | e :: es => runState env (handleEvent env st e).st es

/-- Whether an emission is of the `INTERNET_NAME` family
(`INTERNET_NAME` or `INTERNET_NAME_UNRESOLVED`). -/
def isInetFam (e : Emission) : Bool :=
  e.etype == "INTERNET_NAME" || e.etype == "INTERNET_NAME_UNRESOLVED"

/-- Number of `INTERNET_NAME`-family emissions in a list. -/
def inetFamCount (es : List Emission) : Nat := (es.filter isInetFam).length

/-- Response shapes covered by claim C8: `None`, a non-dict value, or a
dict whose `results` value is not a list (including an absent key). -/
def responseBadShape : Option JValue → Bool
  | none => true
  | some (.obj kvs) =>
    match jlookup kvs "results" with
    | some (.arr _) => false
    | _ => true
  | some _ => true

/-- The fresh module state after `setup` (empty dedup cache, no error). -/
def st0 : MState := ⟨[], false⟩

/-- A state already in the persistent error state. -/
def stErr : MState := ⟨[], true⟩

/-- A state whose dedup cache already holds the hostname key used in the
concrete gate scenarios. -/
def stC : MState := ⟨["INTERNET_NAME:a.example.com"], false⟩

/-- Concrete scenario: the `/subdomains` endpoint answers
`{"results": [{}]}` — one entry without a `qname` key. -/
def env1 : Env :=
  { stop := false, api_key := "k", verify := false,
    matchesTarget := fun _ => false, resolves4 := fun _ => false,
    resolves6 := fun _ => false, isDomain := fun _ => false,
    fetch := fun path _ =>
      if path == "/subdomains" then some (.obj [("results", .arr [.obj []])]) else none }

/-- A `DOMAIN_NAME` input event. -/
def ev1 : Event := ⟨"DOMAIN_NAME", "example.com"⟩

/-- Concrete scenario: everything in scope and resolvable, resolution
verification off, no data returned by any endpoint. -/
def env2 : Env :=
  { stop := false, api_key := "k", verify := false,
    matchesTarget := fun _ => true, resolves4 := fun _ => true,
    resolves6 := fun _ => true, isDomain := fun _ => false,
    fetch := fun _ _ => none }

/-- A concrete in-scope hostname. -/
def hA : JValue := .str "a.example.com"

/-- A concrete parent event for gate calls. -/
def pe2 : Event := ⟨"DOMAIN_NAME", "example.com"⟩

/-- A concrete parent event for the hostname mapper. -/
def pe6 : Event := ⟨"INTERNET_NAME", "example.com"⟩

/-- A hostname-endpoint response whose single `results` entry lacks the
`qname` key. -/
def badData : Option JValue := some (.obj [("results", .arr [.obj []])])

/-- Concrete scenario: everything in scope, resolution verification on
but the host resolves to neither address family. -/
def env7 : Env :=
  { stop := false, api_key := "k", verify := true,
    matchesTarget := fun _ => true, resolves4 := fun _ => false,
    resolves6 := fun _ => false, isDomain := fun _ => false,
    fetch := fun _ _ => none }

/-- Concrete scenario: an empty API key. -/
def envE : Env :=
  { stop := false, api_key := "", verify := false,
    matchesTarget := fun _ => false, resolves4 := fun _ => false,
    resolves6 := fun _ => false, isDomain := fun _ => false,
    fetch := fun _ _ => none }

/-- Concrete scenario: the stop signal is active. -/
def envS : Env :=
  { stop := true, api_key := "k", verify := false,
    matchesTarget := fun _ => true, resolves4 := fun _ => true,
    resolves6 := fun _ => true, isDomain := fun _ => false,
    fetch := fun _ _ => none }

/-- An `EMAILADDR` input event. -/
def evW : Event := ⟨"EMAILADDR", "a@b.example"⟩

/-- A state whose dedup cache already holds the key of `evW`. -/
def stW : MState := ⟨[eventKey evW], false⟩

/-- When the handled event's key is already in the dedup cache,
`handleEvent` issues no queries, emits nothing, and records nothing. -/
theorem handleEvent_dup_skip (env : Env) (st : MState) (ev : Event)
    (h : memS (eventKey ev) st.results = true) :
    (handleEvent env st ev).queries = [] ∧ (handleEvent env st ev).emits = [] ∧
    (handleEvent env st ev).st.results = st.results := by
  cases he : st.errorState <;> cases hs : env.stop <;> cases hk : env.api_key == "" <;>
    simp [handleEvent, he, hs, hk, h]

/-- The dedup cache only grows across a `handleEvent` call. -/
theorem handleEvent_results_mono (env : Env) (st : MState) (ev : Event) (k : String)
    (h : memS k st.results = true) :
    memS k (handleEvent env st ev).st.results = true := by
  cases he : st.errorState <;> cases hs : env.stop <;> cases hk : env.api_key == "" <;>
    cases hd : memS (eventKey ev) st.results <;>
    simp [handleEvent, he, hs, hk, hd, memS, h]

/-- The dedup cache only grows across a run. -/
theorem runState_results_mono (env : Env) (k : String) :
    ∀ (evs : List Event) (st : MState), memS k st.results = true →
      memS k (runState env st evs).results = true
  | [], _, h => h
  | e :: es, st, h =>
    runState_results_mono env k es (handleEvent env st e).st
      (handleEvent_results_mono env st e k h)

/-- A call that issued any query recorded the event's key. -/
theorem handleEvent_queries_recorded (env : Env) (st : MState) (ev : Event)
    (h : (handleEvent env st ev).queries ≠ []) :
    memS (eventKey ev) (handleEvent env st ev).st.results = true := by
  cases he : st.errorState <;> cases hs : env.stop <;> cases hk : env.api_key == "" <;>
    cases hd : memS (eventKey ev) st.results <;>
    simp_all [handleEvent, memS]

/-- A hostname whose dedup key is cached makes the gate a no-op. -/
theorem gate_cached_no_emission (env : Env) (st : MState) (h : JValue) (pe : Event)
    (hc : memS ("INTERNET_NAME:" ++ pyStr h) st.results = true) :
    verify_emit_internet_name env st h pe = ([], false) := by
  simp [verify_emit_internet_name, hc]

/-- A single gate call dispatches at most one `INTERNET_NAME`-family
emission. -/
theorem gate_inetFamCount_le_one (env : Env) (st : MState) (h : JValue) (pe : Event) :
    inetFamCount (verify_emit_internet_name env st h pe).1 ≤ 1 := by
  unfold verify_emit_internet_name
  split
  · simp [inetFamCount]
  · split
    · simp [inetFamCount]
    · split
      · cases hstop : env.stop <;>
          simp [inetFamCount, emitL, emit, hstop, isInetFam]
      · cases hstop : env.stop <;> cases hd : env.isDomain h <;>
          simp [inetFamCount, emitL, emit, hstop, hd, isInetFam]

/-- C1: the claim says `handleEvent` terminates normally on every
response, converting failures into zero emitted events.  At the failing
input — a `DOMAIN_NAME` event whose `/subdomains` response is
`{"results": [{}]}` — the source's `entry['qname']` (line 307) raises a
`KeyError` that escapes `handleEvent`, and the remaining sub-queries of
the branch are abandoned. -/
theorem c1_handle_event_keyerror_escapes :
    (handleEvent env1 st0 ev1).ok = false ∧
    (handleEvent env1 st0 ev1).queries = [("/subdomains", "example.com")] := by
  constructor <;> rfl

/-- C2 counterexample: calling the dedup gate twice with the same
in-scope hostname and the same (unchanged) cache emits two
`INTERNET_NAME`-family events, not at most one — the gate checks the
cache but never writes it. -/
theorem c2_gate_twice_emits_twice :
    inetFamCount ((verify_emit_internet_name env2 st0 hA pe2).1 ++
      (verify_emit_internet_name env2 st0 hA pe2).1) = 2 := by
  rfl

/-- C2 (amended): two gate calls with the same hostname emit at most one
`INTERNET_NAME`-family event in total provided the hostname's dedup key
is in the cache before the second call; the gate itself never inserts
that key, so the bound relies on the cache being updated between the
calls. -/
theorem c2_gate_dedup_under_cached_key (envA envB : Env) (stA stB : MState)
    (h : JValue) (peA peB : Event)
    (hc : memS ("INTERNET_NAME:" ++ pyStr h) stB.results = true) :
    inetFamCount ((verify_emit_internet_name envA stA h peA).1 ++
      (verify_emit_internet_name envB stB h peB).1) ≤ 1 := by
  rw [gate_cached_no_emission envB stB h peB hc]
  simpa using gate_inetFamCount_le_one envA stA h peA

/-- Witness for the amended C2 at a concrete cached hostname. -/
theorem c2_gate_dedup_under_cached_key_witness :
    memS ("INTERNET_NAME:" ++ pyStr hA) stC.results = true ∧
    inetFamCount ((verify_emit_internet_name env2 st0 hA pe2).1 ++
      (verify_emit_internet_name env2 stC hA pe2).1) ≤ 1 :=
  ⟨by decide, c2_gate_dedup_under_cached_key env2 env2 st0 stC hA pe2 pe2 (by decide)⟩

/-- C3: with an empty API key, the first (non-stopped, non-errored)
`handleEvent` call issues no query, emits nothing, and sets the
persistent error flag; any call in the error state returns immediately
with no query and no emission; and the error state is entered only via
a missing API key. -/
theorem c3_error_state_terminal (env : Env) (st : MState) (ev : Event) :
    (env.api_key = "" → st.errorState = false → env.stop = false →
      handleEvent env st ev = ⟨{ st with errorState := true }, [], [], true⟩) ∧
    (st.errorState = true → handleEvent env st ev = ⟨st, [], [], true⟩) ∧
    ((handleEvent env st ev).st.errorState = true →
      st.errorState = true ∨ env.api_key = "") := by
  refine ⟨?_, ?_, ?_⟩
  · intro h1 h2 h3
    simp [handleEvent, h1, h2, h3]
  · intro h
    simp [handleEvent, h]
  · intro h
    cases he : st.errorState
    · cases hs : env.stop
      · cases hk : env.api_key == ""
        · cases hd : memS (eventKey ev) st.results <;>
            simp_all [handleEvent]
        · exact Or.inr (by simpa using hk)
      · simp_all [handleEvent]
    · exact Or.inl rfl

/-- Witness for C3: with the empty-key environment, the first call sets
the error flag with zero queries and emissions, and an errored state is
left untouched. -/
theorem c3_error_state_terminal_witness :
    handleEvent envE st0 ev1 = ⟨⟨[], true⟩, [], [], true⟩ ∧
    handleEvent envE stErr ev1 = ⟨stErr, [], [], true⟩ :=
  ⟨(c3_error_state_terminal envE st0 ev1).1 rfl rfl rfl,
   (c3_error_state_terminal envE stErr ev1).2.1 rfl⟩

/-- C4: an already-cached `"{eventType}:{eventData}"` key makes
`handleEvent` skip (no query, no emission, nothing recorded); any call
that issues a query has recorded the key; and after such a call, any
later call in the run for the same key issues no query — remote queries
are triggered at most once per run per (type, value) pair. -/
theorem c4_queries_at_most_once (env : Env) (st : MState) (ev : Event) :
    (memS (eventKey ev) st.results = true →
      (handleEvent env st ev).queries = [] ∧ (handleEvent env st ev).emits = [] ∧
      (handleEvent env st ev).st.results = st.results) ∧
    ((handleEvent env st ev).queries ≠ [] →
      memS (eventKey ev) (handleEvent env st ev).st.results = true) ∧
    (∀ (envB envC : Env) (evs : List Event) (evB : Event),
      (handleEvent env st ev).queries ≠ [] → eventKey evB = eventKey ev →
      (handleEvent envC (runState envB (handleEvent env st ev).st evs) evB).queries = []) := by
  refine ⟨handleEvent_dup_skip env st ev, handleEvent_queries_recorded env st ev, ?_⟩
  intro envB envC evs evB hq hk
  have h1 := handleEvent_queries_recorded env st ev hq
  have h2 := runState_results_mono envB (eventKey ev) evs (handleEvent env st ev).st h1
  have h3 : memS (eventKey evB)
      (runState envB (handleEvent env st ev).st evs).results = true := by
    rw [hk]; exact h2
  exact (handleEvent_dup_skip envC _ evB h3).1

/-- Witness for C4: a cached key is skipped, and a key recorded by a
query-issuing call is skipped by the next call for the same event. -/
theorem c4_queries_at_most_once_witness :
    (handleEvent env2 stW evW).queries = [] ∧
    (handleEvent env2 (runState env2 (handleEvent env2 st0 evW).st []) evW).queries = [] :=
  ⟨((c4_queries_at_most_once env2 stW evW).1 (by decide)).1,
   (c4_queries_at_most_once env2 st0 evW).2.2 env2 env2 [] evW (by decide) rfl⟩

/-- C5: a hostname outside the target scope makes the gate emit nothing
(whatever the cache, options, or stop flag) and return false. -/
theorem c5_out_of_scope_never_emits (env : Env) (st : MState) (h : JValue) (pe : Event)
    (hm : env.matchesTarget h = false) :
    verify_emit_internet_name env st h pe = ([], false) := by
  cases hc : memS ("INTERNET_NAME:" ++ pyStr h) st.results <;>
    simp [verify_emit_internet_name, hc, hm]

/-- Witness for C5 at a concrete out-of-scope hostname. -/
theorem c5_out_of_scope_never_emits_witness :
    verify_emit_internet_name env1 st0 hA pe2 = ([], false) :=
  c5_out_of_scope_never_emits env1 st0 hA pe2 rfl

/-- C7: with resolution verification on, an in-scope uncached hostname
resolving to neither an IPv4 nor an IPv6 address yields exactly one
`INTERNET_NAME_UNRESOLVED` emission, no `INTERNET_NAME` emission, and
result true (in normal, non-stopped operation). -/
theorem c7_unresolved_exactly_one (env : Env) (st : MState) (h : JValue) (pe : Event)
    (hstop : env.stop = false) (hv : env.verify = true)
    (hm : env.matchesTarget h = true)
    (hc : memS ("INTERNET_NAME:" ++ pyStr h) st.results = false)
    (h4 : env.resolves4 h = false) (h6 : env.resolves6 h = false) :
    verify_emit_internet_name env st h pe =
      ([⟨"INTERNET_NAME_UNRESOLVED", h, pe⟩], true) := by
  simp [verify_emit_internet_name, hc, hm, hv, h4, h6, emitL, emit, hstop]

/-- Witness for C7 at a concrete unresolved in-scope hostname. -/
theorem c7_unresolved_exactly_one_witness :
    verify_emit_internet_name env7 st0 hA pe2 =
      ([⟨"INTERNET_NAME_UNRESOLVED", hA, pe2⟩], true) :=
  c7_unresolved_exactly_one env7 st0 hA pe2 rfl rfl rfl rfl rfl rfl

/-- C8: a response that is `None`, not a dict, or whose `results` field
is not a list makes every one of the four mappers emit zero events,
raise nothing, and return false. -/
theorem c8_bad_shape_zero_events (env : Env) (st : MState) (data : Option JValue)
    (pe : Event) (h : responseBadShape data = true) :
    generate_subdomains_events env st data pe = ([], some false) ∧
    generate_hostname_events env st data pe = ([], some false) ∧
    generate_email_events env data pe = ([], some false) ∧
    generate_email_domain_events env data pe = ([], some false) := by
  match data with
  | none => exact ⟨rfl, rfl, rfl, rfl⟩
  | some (.null) => exact ⟨rfl, rfl, rfl, rfl⟩
  | some (.bool b) => exact ⟨rfl, rfl, rfl, rfl⟩
  | some (.num n) => exact ⟨rfl, rfl, rfl, rfl⟩
  | some (.str s) => exact ⟨rfl, rfl, rfl, rfl⟩
  | some (.arr xs) => exact ⟨rfl, rfl, rfl, rfl⟩
  | some (.obj kvs) =>
    cases hres : jlookup kvs "results" with
    | none =>
      simp [generate_subdomains_events, generate_hostname_events,
            generate_email_events, generate_email_domain_events, hres, genSubLoop]
    | some rv =>
      cases rv <;>
        simp_all [responseBadShape, generate_subdomains_events,
                  generate_hostname_events, generate_email_events,
                  generate_email_domain_events, hres]

/-- Witness for C8 at a concrete dict without a `results` key. -/
theorem c8_bad_shape_zero_events_witness :
    responseBadShape (some (.obj [])) = true ∧
    generate_email_events env2 (some (.obj [])) pe2 = ([], some false) :=
  ⟨rfl, (c8_bad_shape_zero_events env2 st0 (some (.obj [])) pe2 rfl).2.2.1⟩

/-- C9: with the stop signal active, `handleEvent` returns at entry with
no queries, no emissions, and an unchanged state, and `emit` dispatches
nothing. -/
theorem c9_stop_no_queries_no_emissions (env : Env) (st : MState) (ev : Event)
    (etype : String) (data : JValue) (pe : Event) (h : env.stop = true) :
    handleEvent env st ev = ⟨st, [], [], true⟩ ∧ emit env etype data pe = none := by
  constructor
  · cases he : st.errorState <;> simp [handleEvent, he, h]
  · simp [emit, h]

/-- Witness for C9 in the stopped environment. -/
theorem c9_stop_no_queries_no_emissions_witness :
    handleEvent envS st0 ev1 = ⟨st0, [], [], true⟩ ∧
    emit envS "INTERNET_NAME" hA pe2 = none :=
  c9_stop_no_queries_no_emissions envS st0 ev1 "INTERNET_NAME" hA pe2 rfl

/-- C6: the claim says entries of a hostname response whose `qname` is
missing or not a string are skipped and reach neither the gate nor the
emission path.  Because the source checks `isinstance("qname", str)` —
the literal, which is always a string — the entry `{}` is not skipped:
its extracted value (Python `None`) is passed to the gate, and under a
permissive scope it even produces an `INTERNET_NAME` emission whose
payload is `None`. -/
theorem c6_missing_qname_reaches_gate :
    hostname_gate_calls badData = [JValue.null] ∧
    generate_hostname_events env2 st0 badData pe6 =
      ([⟨"INTERNET_NAME", JValue.null, pe6⟩], some true) := by
  constructor <;> rfl

/-- The two email loops compute identical emissions and results. -/
theorem genEmailLoop_eq_genEmailDomainLoop (env : Env) (pe : Event)
    (rs : List JValue) : ∀ flag : Bool,
    genEmailLoop env pe flag rs = genEmailDomainLoop env pe flag rs := by
  induction rs with
  | nil => intro flag; rfl
  | cons r rest ih =>
    intro flag
    cases hg : pyGetE r "d" with
    | none => simp [genEmailLoop, genEmailDomainLoop, hg]
    | some d =>
      cases hd : d.isStr <;>
        simp [genEmailLoop, genEmailDomainLoop, hg, hd, ih]

/-- C10: `generate_email_events` and `generate_email_domain_events` are
extensionally equal — the same emissions in the same order and the same
result, for every response and parent event. -/
theorem c10_email_mappers_equal (env : Env) (data : Option JValue) (pe : Event) :
    generate_email_events env data pe = generate_email_domain_events env data pe := by
  match data with
  | none => rfl
  | some (.null) => rfl
  | some (.bool b) => rfl
  | some (.num n) => rfl
  | some (.str s) => rfl
  | some (.arr xs) => rfl
  | some (.obj kvs) =>
    cases h : (jlookup kvs "results").getD .null <;>
      simp [generate_email_events, generate_email_domain_events, h,
            genEmailLoop_eq_genEmailDomainLoop]

end SfpZetalytics
